import Mathlib

/-!
Verification of the inventory application (two Flask app instances sharing the
same lifecycle and bulk-import logic).  The definitions below are a shallow
embedding of the relevant Python source:

  * app/utils/bulk_operations.py  (class BulkOperations)
  * app/routes/inventory.py       (edit, checkout, checkin routes)
  * app/models.py                 (User.has_permission, Equipment.is_available,
                                   MovementLog, AuditLog, log_audit_event)

Python cell values coming out of a pandas DataFrame are modelled by RawValue:
a cell is absent/NaN-like (none), a string, an integer, or a float.  Floats
are modelled exactly as rationals.  Machine integers in the source are Python
arbitrary-precision integers, so Int is the right carrier.
-/

/-- Model of one pandas cell value after the DataFrame is materialised.
NaN-like values (np.nan, pd.NA, None) are all collapsed to RawValue.none,
matching how the import code replaces them wholesale before row processing. -/
inductive RawValue where
  | none : RawValue
  | str : String → RawValue
  | int : Int → RawValue
  | float : Rat → RawValue
deriving DecidableEq, Repr

/-- Calendar date as produced by datetime.date. -/
structure Date where
  year : Nat
  month : Nat
  day : Nat
deriving DecidableEq, Repr

/-- Python strip(): drop whitespace from both ends.  (String.pyStrip itself is
implemented by well-founded recursion and does not reduce inside the kernel,
so the model uses this structurally recursive equivalent.) -/
def String.pyStrip (s : String) : String :=
  ⟨((s.data.dropWhile Char.isWhitespace).reverse.dropWhile Char.isWhitespace).reverse⟩

/-- Python str() applied to a cell value.  Note str(None) is the four letter
string None, which is load bearing in the import code: a missing required
cell that is fed through str() does not become empty.  The rendering chosen
for float cells is a stand-in (no theorem below depends on it). -/
def pystr : RawValue → String
  | RawValue.none => "None"
  | RawValue.str s => s
  | RawValue.int n => toString n
  | RawValue.float q => toString q

/-- Python truthiness of a cell value (bool(v) is False). -/
def pyFalsy : RawValue → Bool
  | RawValue.none => true
  | RawValue.str s => s = ""
  | RawValue.int n => n = 0
  | RawValue.float q => q = 0

/-- pd.isna on a scalar: true exactly for the NaN-like values, which the
model collapses into RawValue.none. -/
def pyIsNA : RawValue → Bool
  | RawValue.none => true
  | _ => false

/-- One step of df.replace performed at the top of import_from_dataframe:
np.nan, pd.NA, the exact string NA and the empty string all become None. -/
def normalizeCell : RawValue → RawValue
  | RawValue.str s => if s = "NA" ∨ s = "" then RawValue.none else RawValue.str s
  | v => v

/-- A tabular row: association list from column name to cell value. -/
def Row := List (String × RawValue)

/-- getattr(row, field, default) on an itertuples row. -/
def getCell (r : Row) (f : String) (d : RawValue) : RawValue :=
  match List.lookup f r with
  | some v => v
  | Option.none => d

/-- Apply the NA replacement to every cell of a row. -/
def normalizeRow (r : Row) : Row :=
  r.map (fun p => (p.1, normalizeCell p.2))

/-- An input table: the column header plus the data rows. -/
structure DataFrame where
  cols : List String
  rows : List Row

/-! ### Date parsing (BulkOperations.parse_date)

The source tries the strptime formats YYYY-MM-DD, MM/DD/YYYY, DD/MM/YYYY and
YYYY-MM-DD HH:MM:SS in that order and raises BulkImportError if none match.
strptime matches one to two digits for month/day/hour/minute/second fields,
one to four digits for the year, requires the whole string to be consumed and
validates the calendar date. -/

/-- Greedily take up to fuel leading digits, returning value, count, rest. -/
def grabDigits (fuel : Nat) (acc : Nat) (cnt : Nat) : List Char → Nat × Nat × List Char
  | [] => (acc, cnt, [])
  | c :: cs =>
    if fuel = 0 then (acc, cnt, c :: cs)
    else if c.isDigit then grabDigits (fuel - 1) (10 * acc + (c.toNat - 48)) (cnt + 1) cs
    else (acc, cnt, c :: cs)

/-- Read between one and maxD digits (greedy, like the strptime regex). -/
def takeNum (maxD : Nat) (cs : List Char) : Option (Nat × List Char) :=
  let r := grabDigits maxD 0 0 cs
  if r.2.1 = 0 then Option.none else some (r.1, r.2.2)

/-- Consume one expected literal character. -/
def expectChar (c : Char) : List Char → Option (List Char)
  | d :: cs => if d = c then some cs else Option.none
  | [] => Option.none

/-- Consume a nonempty run of whitespace (strptime turns a literal blank in
the format into a one-or-more whitespace match). -/
def expectSpaces : List Char → Option (List Char)
  | c :: cs => if c.isWhitespace then some (cs.dropWhile Char.isWhitespace) else Option.none
  | [] => Option.none

/-- Gregorian leap year rule used by datetime. -/
def isLeap (y : Nat) : Bool :=
  (y % 4 = 0 && y % 100 ≠ 0) || y % 400 = 0

/-- Days in a month under the proleptic Gregorian calendar. -/
def daysInMonth (y m : Nat) : Nat :=
  if m = 1 then 31
  else if m = 2 then (if isLeap y then 29 else 28)
  else if m = 3 then 31
  else if m = 4 then 30
  else if m = 5 then 31
  else if m = 6 then 30
  else if m = 7 then 31
  else if m = 8 then 31
  else if m = 9 then 30
  else if m = 10 then 31
  else if m = 11 then 30
  else 31

/-- Validation performed by the datetime constructor. -/
def mkValidDate (y m d : Nat) : Option Date :=
  if 1 ≤ y ∧ y ≤ 9999 ∧ 1 ≤ m ∧ m ≤ 12 ∧ 1 ≤ d ∧ d ≤ daysInMonth y m then
    some ⟨y, m, d⟩
  else Option.none

/-- Shared digit-and-separator skeleton of the three slash or dash formats. -/
def parseThree (sep : Char) (w1 w2 w3 : Nat) (cs : List Char) :
    Option (Nat × Nat × Nat × List Char) := do
  let (a, cs) ← takeNum w1 cs
  let cs ← expectChar sep cs
  let (b, cs) ← takeNum w2 cs
  let cs ← expectChar sep cs
  let (c, cs) ← takeNum w3 cs
  some (a, b, c, cs)

/-- strptime with format %Y-%m-%d (full consumption required). -/
def parseYMD (s : String) : Option Date :=
  match parseThree '-' 4 2 2 s.data with
  | some (y, m, d, []) => mkValidDate y m d
  | _ => Option.none

/-- strptime with format %m/%d/%Y. -/
def parseMDY (s : String) : Option Date :=
  match parseThree '/' 2 2 4 s.data with
  | some (m, d, y, []) => mkValidDate y m d
  | _ => Option.none

/-- strptime with format %d/%m/%Y. -/
def parseDMY (s : String) : Option Date :=
  match parseThree '/' 2 2 4 s.data with
  | some (d, m, y, []) => mkValidDate y m d
  | _ => Option.none

/-- strptime with format %Y-%m-%d %H:%M:%S followed by .date(), so only the
calendar date survives.  Hours up to 23, minutes and seconds up to 59. -/
def parseYMDHMS (s : String) : Option Date :=
  match parseThree '-' 4 2 2 s.data with
  | some (y, m, d, rest) =>
    match expectSpaces rest with
    | some rest =>
      (match parseThree ':' 2 2 2 rest with
       | some (hh, mi, ss, []) =>
         if hh ≤ 23 ∧ mi ≤ 59 ∧ ss ≤ 59 then mkValidDate y m d else Option.none
       | _ => Option.none)
    | Option.none => Option.none
  | _ => Option.none

/-- The ordered list of formats tried by parse_date: first success wins. -/
def tryFormats (s : String) : Option Date :=
  (parseYMD s).orElse (fun _ =>
    (parseMDY s).orElse (fun _ =>
      (parseDMY s).orElse (fun _ => parseYMDHMS s)))

/-- BulkOperations.parse_date.  NaN-like, falsy and blank inputs return None
without error; otherwise the stripped string is matched against the four
formats in order and a BulkImportError is raised if none fits.  (The
isinstance branch for datetime/Timestamp inputs has no counterpart here
because RawValue has no datetime constructor.) -/
def parse_date (v : RawValue) : Except String (Option Date) :=
  if pyIsNA v || pyFalsy v || (pystr v).pyStrip = "" then Except.ok Option.none
  else
    let s := (pystr v).pyStrip
    match tryFormats s with
    | some d => Except.ok (some d)
    | Option.none => Except.error s!"Invalid date format: {s}"

/-! ### Python numeric coercions int() and float() on strings -/

/-- Digit run with optional single underscores between digits, as accepted by
the Python int literal parser: 1_0 is fine, _1 and 1_ and 1__0 are not. -/
def intDigits : List Char → Option Nat
  | [] => Option.none
  | c :: cs => if c.isDigit then intDigitsGo (c.toNat - 48) cs else Option.none
where
  intDigitsGo (acc : Nat) : List Char → Option Nat
    | [] => some acc
    | c :: cs =>
      if c.isDigit then intDigitsGo (10 * acc + (c.toNat - 48)) cs
      else if c = '_' then
        match cs with
        | d :: cs2 => if d.isDigit then intDigitsGo (10 * acc + (d.toNat - 48)) cs2 else Option.none
        | [] => Option.none
      else Option.none

/-- Python int(s) on a string: strip whitespace, optional sign, strict
integer literal; anything else (including a fractional literal) raises. -/
def pyIntOfString (s : String) : Option Int :=
  match s.pyStrip.data with
  | '+' :: rest => (intDigits rest).map Int.ofNat
  | '-' :: rest => (intDigits rest).map (fun n => -(n : Int))
  | cs => (intDigits cs).map Int.ofNat

/-- Value of a digit list read as a natural number (no underscores). -/
def natOfDigits (cs : List Char) : Nat :=
  cs.foldl (fun acc c => 10 * acc + (c.toNat - 48)) 0

/-- Unsigned decimal part of a Python float literal: digits, optional dot
with more digits, at least one digit overall, optional exponent.  The inf and
nan spellings and underscores are not modelled (no theorem depends on them). -/
def pyFloatCore (cs : List Char) : Option Rat :=
  let (ip, rest) := cs.span Char.isDigit
  let (fp, rest2) :=
    match rest with
    | '.' :: t => let (fp, r) := t.span Char.isDigit; (fp, r)
    | _ => ([], rest)
  if ip.isEmpty && fp.isEmpty then Option.none
  else
    let mant : Rat := (natOfDigits ip : Rat) + (natOfDigits fp : Rat) / ((10 : Rat) ^ fp.length)
    match rest2 with
    | [] => some mant
    | 'e' :: t => pyFloatExp mant t
    | 'E' :: t => pyFloatExp mant t
    | _ => Option.none
where
  pyFloatExp (mant : Rat) (t : List Char) : Option Rat :=
    let (neg, digs) :=
      match t with
      | '+' :: d => (false, d)
      | '-' :: d => (true, d)
      | d => (false, d)
    if digs.isEmpty || !digs.all Char.isDigit then Option.none
    else
      let e := natOfDigits digs
      some (if neg then mant / (10 : Rat) ^ e else mant * (10 : Rat) ^ e)

/-- Python float(s) on a string: strip, optional sign, decimal literal. -/
def pyFloatOfString (s : String) : Option Rat :=
  match s.pyStrip.data with
  | '+' :: rest => pyFloatCore rest
  | '-' :: rest => (pyFloatCore rest).map Neg.neg
  | cs => pyFloatCore cs

/-- Python int(v) on a cell value: identity on ints, truncation toward zero
on floats, strict literal parse on strings, TypeError on None. -/
def pyIntOfValue (v : RawValue) : Except String Int :=
  match v with
  | RawValue.int n => Except.ok n
  | RawValue.float q => Except.ok (if q ≥ 0 then q.floor else q.ceil)
  | RawValue.str s =>
    match pyIntOfString s with
    | some n => Except.ok n
    | Option.none => Except.error s!"invalid literal for int with base 10: {s}"
  | RawValue.none => Except.error "int argument must be a string or a number, not NoneType"

/-- Python float(v) on a cell value. -/
def pyFloatOfValue (v : RawValue) : Except String Rat :=
  match v with
  | RawValue.int n => Except.ok (n : Rat)
  | RawValue.float q => Except.ok q
  | RawValue.str s =>
    match pyFloatOfString s with
    | some q => Except.ok q
    | Option.none => Except.error s!"could not convert string to float: {s}"
  | RawValue.none => Except.error "float argument must be a string or a number, not NoneType"

/-! ### Data model (app/models.py) -/

/-- Equipment row of the Entity Store.  Column types follow models.py; fields
that are nullable in the schema (or that the import code may leave unset) are
Options.  Monetary columns are modelled exactly as rationals. -/
structure Equipment where
  id : Int := 0
  asset_tag : String := ""
  name : String := ""
  category : String := ""
  description : Option String := Option.none
  model_number : Option String := Option.none
  manufacturer : Option String := Option.none
  serial_number : Option String := Option.none
  procurement_date : Option Date := Option.none
  warranty_expiry : Option Date := Option.none
  status : Option String := Option.none
  condition : Option String := Option.none
  chip_type : Option String := Option.none
  package_type : Option String := Option.none
  pin_count : Option Int := Option.none
  temperature_grade : Option String := Option.none
  testing_status : Option String := Option.none
  revision_info : Option String := Option.none
  design_files : Option String := Option.none
  location : Option String := Option.none
  assigned_to_id : Option Int := Option.none
  tags : Option String := Option.none
  notes : Option String := Option.none
  purchase_cost : Option Rat := Option.none
  current_value : Option Rat := Option.none
deriving DecidableEq, Repr

/-- MovementLog row (timestamps are not modelled; no claim concerns them). -/
structure MovementLog where
  equipment_id : Int
  user_id : Int
  action : String
  from_location : Option String := Option.none
  to_location : Option String := Option.none
  from_user_id : Option Int := Option.none
  to_user_id : Option Int := Option.none
  notes : Option String := Option.none
deriving DecidableEq, Repr

/-- AuditLog row.  The json.dumps serialisation of the old/new value dicts is
modelled as the underlying key-value list; log_audit_event stores None when
the dict argument is falsy. -/
structure AuditEvent where
  user_id : Int
  equipment_id : Option Int := Option.none
  action : String
  table_name : Option String := Option.none
  record_id : Option Int := Option.none
  old_values : Option (List (String × RawValue)) := Option.none
  new_values : Option (List (String × RawValue)) := Option.none
deriving DecidableEq, Repr

/-- The durable state: Entity Store plus the two append-only ledgers. -/
structure StoreState where
  equipment : List Equipment := []
  movements : List MovementLog := []
  audits : List AuditEvent := []
deriving DecidableEq, Repr

/-- Authenticated actor (User model): id plus role string. -/
structure User where
  id : Int
  role : String
deriving DecidableEq, Repr

/-- User.has_permission: fixed role-to-actions table, unknown roles get no
permissions. -/
def has_permission (u : User) (action : String) : Bool :=
  let perms : List String :=
    if u.role = "Admin" then ["create", "read", "update", "delete", "bulk_import", "user_management"]
    else if u.role = "Lab Staff" then ["create", "read", "update", "delete", "bulk_import"]
    else if u.role = "Researcher" then ["read", "update", "checkout", "checkin"]
    else if u.role = "Read-only" then ["read"]
    else []
  perms.contains action

/-- Equipment.is_available: status equals the Available literal. -/
def is_available (e : Equipment) : Bool :=
  e.status = some "Available"

/-! ### Bulk import (app/utils/bulk_operations.py)

The import walks the rows with 2-based numbering, validates each row
independently against the store, accumulates accepted drafts and per-row
error strings, and in commit mode persists all drafts in one transaction.

A central modelling point: the per-field conversion guards are Python
membership tests against tuples that contain pd.NA, namely

    value not in (None, Empty, pd.NA, np.nan)    and
    value in (Empty, NA, pd.NA, np.nan).

For a str, int or float value that is not equal to an earlier tuple element,
evaluating the pd.NA element computes value == pd.NA, which propagates pd.NA
(pandas NAType propagates through == with str and numeric operands), and the
membership operator then takes its truth value, which raises
TypeError: boolean value of NA is ambiguous.  The per-row try/except turns
that into a row rejection.  Consequently the int()/float()/parse_date()
conversion calls are reachable only for values the tuple recognises as null,
and any row carrying a non-null optional value is rejected. -/

/-- Message of the TypeError raised by taking the truth value of pd.NA. -/
def naAmbiguous : String := "boolean value of NA is ambiguous"

/-- Membership test value not in (None, Empty, pd.NA, np.nan), as an Except:
ok false when the value is matched as null (so the conversion is skipped),
ok true when the conversion should run (never reached), error when the pd.NA
comparison raises. -/
def tupleGuard (v : RawValue) : Except String Bool :=
  match v with
  | RawValue.none => Except.ok false
  | RawValue.str s => if s = "" then Except.ok false else Except.error naAmbiguous
  | RawValue.int _ => Except.error naAmbiguous
  | RawValue.float _ => Except.error naAmbiguous

/-- Converted value of one optional field, before it is assigned. -/
inductive ConvVal where
  | none : ConvVal
  | str : String → ConvVal
  | int : Int → ConvVal
  | rat : Rat → ConvVal
  | date : Date → ConvVal
deriving DecidableEq, Repr

/-- The required and optional field lists of the equipment domain. -/
def REQUIRED_FIELDS : List String := ["asset_tag", "name", "category"]

def OPTIONAL_FIELDS : List String :=
  ["description", "model_number", "manufacturer", "serial_number",
   "procurement_date", "warranty_expiry", "status", "condition",
   "chip_type", "package_type", "pin_count", "temperature_grade",
   "testing_status", "revision_info", "design_files", "location",
   "purchase_cost", "current_value", "tags", "notes"]

/-- Field-specific conversion (lines 89 to 97 of bulk_operations.py):
pin_count through int(), the monetary fields through float(), the date fields
through parse_date, each behind the raising tuple guard; strings are
stripped; other values pass through. -/
def convertField (f : String) (v : RawValue) : Except String ConvVal :=
  if f = "pin_count" then do
    let b ← tupleGuard v
    if b then ConvVal.int <$> pyIntOfValue v else pure ConvVal.none
  else if f = "purchase_cost" ∨ f = "current_value" then do
    let b ← tupleGuard v
    if b then ConvVal.rat <$> pyFloatOfValue v else pure ConvVal.none
  else if f = "procurement_date" ∨ f = "warranty_expiry" then do
    let b ← tupleGuard v
    if b then do
      let o ← parse_date v
      pure (match o with | some d => ConvVal.date d | Option.none => ConvVal.none)
    else pure ConvVal.none
  else
    match v with
    | RawValue.str s => pure (ConvVal.str s.pyStrip)
    | RawValue.none => pure ConvVal.none
    | RawValue.int n => pure (ConvVal.int n)
    | RawValue.float q => pure (ConvVal.rat q)

/-- The trailing normalisation (line 98): value in (Empty, NA, pd.NA, np.nan)
maps empty and NA strings to None; a surviving int or rational raises on the
pd.NA comparison exactly as in tupleGuard; None and date values compare
False throughout (NAType returns NotImplemented for them). -/
def line98 (c : ConvVal) : Except String ConvVal :=
  match c with
  | ConvVal.none => Except.ok ConvVal.none
  | ConvVal.str s => if s = "" ∨ s = "NA" then Except.ok ConvVal.none else Except.error naAmbiguous
  | ConvVal.int _ => Except.error naAmbiguous
  | ConvVal.rat _ => Except.error naAmbiguous
  | ConvVal.date d => Except.ok (ConvVal.date d)

def ConvVal.toOptStr : ConvVal → Option String
  | ConvVal.str s => some s
  | _ => Option.none

def ConvVal.toOptInt : ConvVal → Option Int
  | ConvVal.int n => some n
  | _ => Option.none

def ConvVal.toOptRat : ConvVal → Option Rat
  | ConvVal.rat q => some q
  | _ => Option.none

def ConvVal.toOptDate : ConvVal → Option Date
  | ConvVal.date d => some d
  | _ => Option.none

/-- setattr(equipment, field, value) for the twenty optional columns. -/
def assignField (e : Equipment) (f : String) (c : ConvVal) : Equipment :=
  if f = "description" then { e with description := c.toOptStr }
  else if f = "model_number" then { e with model_number := c.toOptStr }
  else if f = "manufacturer" then { e with manufacturer := c.toOptStr }
  else if f = "serial_number" then { e with serial_number := c.toOptStr }
  else if f = "procurement_date" then { e with procurement_date := c.toOptDate }
  else if f = "warranty_expiry" then { e with warranty_expiry := c.toOptDate }
  else if f = "status" then { e with status := c.toOptStr }
  else if f = "condition" then { e with condition := c.toOptStr }
  else if f = "chip_type" then { e with chip_type := c.toOptStr }
  else if f = "package_type" then { e with package_type := c.toOptStr }
  else if f = "pin_count" then { e with pin_count := c.toOptInt }
  else if f = "temperature_grade" then { e with temperature_grade := c.toOptStr }
  else if f = "testing_status" then { e with testing_status := c.toOptStr }
  else if f = "revision_info" then { e with revision_info := c.toOptStr }
  else if f = "design_files" then { e with design_files := c.toOptStr }
  else if f = "location" then { e with location := c.toOptStr }
  else if f = "purchase_cost" then { e with purchase_cost := c.toOptRat }
  else if f = "current_value" then { e with current_value := c.toOptRat }
  else if f = "tags" then { e with tags := c.toOptStr }
  else if f = "notes" then { e with notes := c.toOptStr }
  else e

/-- One iteration of the optional-field loop body. -/
def setOptField (e : Equipment) (f : String) (v : RawValue) : Except String Equipment := do
  let c ← convertField f v
  let c ← line98 c
  pure (assignField e f c)

/-- The unique key of a row as the import sees it: None when the asset_tag
cell is absent or blank after str().strip(), otherwise the stripped tag. -/
def tagOf (r : Row) : Option String :=
  let atv := getCell r "asset_tag" RawValue.none
  if atv = RawValue.none then Option.none
  else if (pystr atv).pyStrip = "" then Option.none
  else some (pystr atv).pyStrip

/-- Row validation (the body of the per-row try block): asset_tag presence,
uniqueness against the Entity Store only, the three required string fields,
then the optional-field loop.  Conversion exceptions are wrapped with the
row number exactly like the except branch of the source. -/
def dupTagMsg (rn : Nat) (t : String) : String :=
  s!"Row {rn}: Asset tag {t} already exists"

def buildEquipment (store : List Equipment) (r : Row) (rn : Nat) : Except String Equipment :=
  if getCell r "asset_tag" RawValue.none = RawValue.none
      ∨ (pystr (getCell r "asset_tag" RawValue.none)).pyStrip = "" then
    Except.error s!"Row {rn}: asset_tag is required."
  else if store.any (fun e => e.asset_tag = (pystr (getCell r "asset_tag" RawValue.none)).pyStrip) then
    Except.error (dupTagMsg rn ((pystr (getCell r "asset_tag" RawValue.none)).pyStrip))
  else
    match OPTIONAL_FIELDS.foldlM (fun e f => setOptField e f (getCell r f RawValue.none))
      ({ asset_tag := (pystr (getCell r "asset_tag" RawValue.none)).pyStrip,
         name := (pystr (getCell r "name" (RawValue.str ""))).pyStrip,
         category := (pystr (getCell r "category" (RawValue.str ""))).pyStrip } : Equipment) with
    | Except.ok e => Except.ok e
    | Except.error m => Except.error s!"Row {rn}: {m}"

/-- Aggregated batch outcome (the results dict). -/
structure ImportResults where
  success : Nat := 0
  errors : List String := []
  warnings : List String := []
  total : Nat := 0
deriving DecidableEq, Repr

/-- The row loop: 2-based numbering, every row processed, errors collected,
accepted drafts accumulated in order. -/
def importLoop (store : List Equipment) :
    List Row → Nat → ImportResults → List Equipment → ImportResults × List Equipment
  | [], _, res, acc => (res, acc)
  | r :: rs, rn, res, acc =>
    match buildEquipment store r rn with
    | Except.ok e =>
      importLoop store rs (rn + 1)
        { res with total := res.total + 1, success := res.success + 1 } (acc ++ [e])
    | Except.error m =>
      importLoop store rs (rn + 1)
        { res with total := res.total + 1, errors := res.errors ++ [m] } acc

/-- Header validation errors (missing required columns). -/
def headerErrors (df : DataFrame) : List String :=
  (REQUIRED_FIELDS.filter (fun f => !df.cols.contains f)).map
    (fun f => s!"Missing required field in file: {f}")

/-- The validation pass over the whole (NA-normalised) table. -/
def validationPhase (df : DataFrame) (st : StoreState) : ImportResults × List Equipment :=
  importLoop st.equipment (df.rows.map normalizeRow) 2 {} []

/-- The single transactional commit of all accepted drafts: session.add for
every draft followed by one commit.  The commit either persists every row or
raises, in which case the session is rolled back and nothing is persisted.
Failure is injected through dbFails (store unavailable) and also arises from
the unique constraint on asset_tag. -/
def commitBatch (st : StoreState) (drafts : List Equipment) (dbFails : Bool) :
    Except String StoreState :=
  if dbFails then Except.error "commit failed"
  else if !((st.equipment ++ drafts).map (fun e => e.asset_tag)).Nodup then
    Except.error "UNIQUE constraint failed: equipment.asset_tag"
  else Except.ok { st with equipment := st.equipment ++ drafts }

/-- The one batch-level audit event written after a successful commit. -/
def bulkAudit (uid : Int) (count : Nat) : AuditEvent :=
  { user_id := uid, action := "bulk_import", table_name := some "equipment",
    new_values := some [("count", RawValue.int (count : Int))] }

/-- BulkOperations.import_from_dataframe.  Header check, NA replacement,
independent per-row validation, then (commit mode only, and only when at
least one draft was accepted) the all-or-nothing persistence step followed by
one bulk_import audit event; a persistence failure rolls back and is
reported in the errors list. -/
def import_from_dataframe (df : DataFrame) (user_id : Int) (dry_run : Bool)
    (st : StoreState) (dbFails : Bool) : ImportResults × StoreState :=
  if headerErrors df ≠ [] then
    ({ errors := headerErrors df }, st)
  else
    let v := validationPhase df st
    if dry_run = false ∧ v.2 ≠ [] then
      match commitBatch st v.2 dbFails with
      | Except.ok st2 =>
        (v.1, { st2 with audits := st2.audits ++ [bulkAudit user_id v.2.length] })
      | Except.error m =>
        ({ v.1 with errors := v.1.errors ++ [s!"Database error: {m}"] }, st)
    else (v.1, st)

/-! ### Single-entity routes (app/routes/inventory.py)

The routes mutate the equipment row and append movement and audit records
inside one request; a failed precondition or permission check returns before
any mutation, so failure is modelled as an error carrying no new state.
Flash messages double as error strings.  Timestamps and the HTTP redirect
plumbing are not modelled. -/

/-- request.form.get(key): None when the key is absent. -/
def formGet (form : List (String × String)) (k : String) : Option String :=
  List.lookup k form

/-- request.form.get(key, default). -/
def formGetD (form : List (String × String)) (k d : String) : String :=
  match formGet form k with
  | some s => s
  | Option.none => d

/-- request.form.get(key).strip() on an absent key raises AttributeError,
which the request-level except turns into a failed edit. -/
def requireForm (form : List (String × String)) (k : String) : Except String String :=
  match formGet form k with
  | some s => Except.ok s
  | Option.none => Except.error "AttributeError: NoneType has no attribute strip"

/-- The idiom  stripped_string or None  used for nullable text fields. -/
def orNone (s : String) : Option String :=
  if s = "" then Option.none else some s

/-- Equipment.set_tags_list input preparation: split on commas, strip, drop
blanks. -/
def splitTags (s : String) : List String :=
  ((s.splitOn ",").map String.pyStrip).filter (fun t => t ≠ "")

/-- Equipment.set_tags_list: comma-space join, empty string for no tags. -/
def set_tags_list (l : List String) : String :=
  if l ≠ [] then String.intercalate ", " l else ""

/-- datetime.strptime with the fixed %Y-%m-%d format used by the form
routes; failure raises ValueError. -/
def strptimeYMD (s : String) : Except String Date :=
  match parseYMD s with
  | some d => Except.ok d
  | Option.none => Except.error s!"time data {s} does not match format"

def rawOfOptStr : Option String → RawValue
  | some s => RawValue.str s
  | Option.none => RawValue.none

def rawOfOptInt : Option Int → RawValue
  | some n => RawValue.int n
  | Option.none => RawValue.none

/-- The checkout route: availability precondition first, then the checkout
permission; on success status becomes In Use, the assignee becomes the
requesting actor, and one checkout movement plus one audit event are
appended. -/
def checkout (e : Equipment) (u : User) : Except String (Equipment × MovementLog × AuditEvent) :=
  if is_available e = false then
    Except.error "Equipment is not available for checkout"
  else if has_permission u "checkout" = false then
    Except.error "You do not have permission to checkout equipment"
  else
    let e2 := { e with status := some "In Use", assigned_to_id := some u.id }
    let mv : MovementLog :=
      { equipment_id := e.id, user_id := u.id, action := "checkout",
        to_user_id := some u.id, to_location := e2.location, notes := some "Self-checkout" }
    let audit : AuditEvent :=
      { user_id := u.id, equipment_id := some e.id, action := "checkout_equipment",
        table_name := some "equipment", record_id := some e.id,
        old_values := some [("status", RawValue.str "Available"), ("assigned_to_id", RawValue.none)],
        new_values := some [("status", RawValue.str "In Use"), ("assigned_to_id", RawValue.int u.id)] }
    Except.ok (e2, mv, audit)

/-- The checkin route: permitted when the entity is assigned to the actor or
the actor holds the update permission; no status precondition.  On success
status becomes Available, the assignee is cleared, and a checkin movement
records the previous assignee as from-user. -/
def checkin (e : Equipment) (u : User) : Except String (Equipment × MovementLog × AuditEvent) :=
  if e.assigned_to_id ≠ some u.id ∧ has_permission u "update" = false then
    Except.error "You can only check in equipment assigned to you"
  else
    let old_assigned := e.assigned_to_id
    let e2 := { e with status := some "Available", assigned_to_id := Option.none }
    let mv : MovementLog :=
      { equipment_id := e.id, user_id := u.id, action := "checkin",
        from_user_id := old_assigned, to_location := e2.location, notes := some "Equipment returned" }
    let audit : AuditEvent :=
      { user_id := u.id, equipment_id := some e.id, action := "checkin_equipment",
        table_name := some "equipment", record_id := some e.id,
        old_values := some [("status", RawValue.str "In Use"), ("assigned_to_id", rawOfOptInt old_assigned)],
        new_values := some [("status", RawValue.str "Available"), ("assigned_to_id", RawValue.none)] }
    Except.ok (e2, mv, audit)

/-- The fallible form fields of the edit route, in the order the source
reads them (the first failing parse aborts the edit): the three required
text fields (an absent key raises AttributeError on strip), the two dates
through strptime %Y-%m-%d, the pin count and assignee through int(), the
two monetary fields through float(), with current_value falling back to
purchase_cost when its field is blank. -/
structure EditParsed where
  asset_tag : String
  name : String
  category : String
  procurement_date : Option Date
  warranty_expiry : Option Date
  pin_count : Option Int
  new_assigned : Option Int
  purchase_cost : Option Rat
  current_value : Option Rat
deriving DecidableEq, Repr

def parseEditForm (form : List (String × String)) : Except String EditParsed := do
  let asset_tag := (← requireForm form "asset_tag").pyStrip
  let name := (← requireForm form "name").pyStrip
  let category := (← requireForm form "category").pyStrip
  let procurement_date ← match formGet form "procurement_date" with
    | some s => if s ≠ "" then some <$> strptimeYMD s else pure Option.none
    | Option.none => pure Option.none
  let warranty_expiry ← match formGet form "warranty_expiry" with
    | some s => if s ≠ "" then some <$> strptimeYMD s else pure Option.none
    | Option.none => pure Option.none
  let pin_count_s := (formGetD form "pin_count" "").pyStrip
  let pin_count ← if pin_count_s ≠ "" then some <$> pyIntOfValue (RawValue.str pin_count_s)
                  else pure Option.none
  let new_assigned ← match formGet form "assigned_to" with
    | some s => if s ≠ "" then some <$> pyIntOfValue (RawValue.str s) else pure Option.none
    | Option.none => pure Option.none
  let purchase_cost_s := (formGetD form "purchase_cost" "").pyStrip
  let purchase_cost ← if purchase_cost_s ≠ "" then some <$> pyFloatOfValue (RawValue.str purchase_cost_s)
                      else pure Option.none
  let current_value_s := (formGetD form "current_value" "").pyStrip
  let current_value ← if current_value_s ≠ "" then some <$> pyFloatOfValue (RawValue.str current_value_s)
                      else pure purchase_cost
  Except.ok
    { asset_tag := asset_tag, name := name, category := category,
      procurement_date := procurement_date, warranty_expiry := warranty_expiry,
      pin_count := pin_count, new_assigned := new_assigned,
      purchase_cost := purchase_cost, current_value := current_value }

/-- The pure remainder of the edit route once all form fields parsed: the
descriptive fields are overwritten from the form, then the
assignment-change sub-rule: when the parsed assignee differs from the
stored assignee the status is forced to In Use or Available (overriding
the status field of the form) and an assign or unassign movement is
synthesised; otherwise the form status is kept and no movement is written.
One update_equipment audit event records old and new snapshots of the
tracked fields. -/
def applyEdit (e : Equipment) (u : User) (form : List (String × String)) (pf : EditParsed) :
    Equipment × List MovementLog × AuditEvent :=
  let old_assigned := e.assigned_to_id
  let status := formGetD form "status" "Available"
  let location := (formGetD form "location" "").pyStrip
  let statusAssignMvs :=
    if old_assigned ≠ pf.new_assigned then
      match pf.new_assigned with
      | some nid =>
        ("In Use", pf.new_assigned,
         [({ equipment_id := e.id, user_id := u.id, action := "assign",
             from_user_id := old_assigned, to_user_id := some nid,
             to_location := some location,
             notes := some "Assignment changed via edit" } : MovementLog)])
      | Option.none =>
        ("Available", Option.none,
         [({ equipment_id := e.id, user_id := u.id, action := "unassign",
             from_user_id := old_assigned,
             to_location := some location,
             notes := some "Unassigned via edit" } : MovementLog)])
    else (status, old_assigned, [])
  let tags_input := (formGetD form "tags" "").pyStrip
  let e2 : Equipment :=
    { e with
      asset_tag := pf.asset_tag, name := pf.name,
      description := some (formGetD form "description" "").pyStrip,
      category := pf.category,
      model_number := some (formGetD form "model_number" "").pyStrip,
      manufacturer := some (formGetD form "manufacturer" "").pyStrip,
      serial_number := some (formGetD form "serial_number" "").pyStrip,
      procurement_date := pf.procurement_date, warranty_expiry := pf.warranty_expiry,
      status := some statusAssignMvs.1,
      condition := some (formGetD form "condition" "Good"),
      chip_type := orNone (formGetD form "chip_type" "").pyStrip,
      package_type := orNone (formGetD form "package_type" "").pyStrip,
      pin_count := pf.pin_count,
      temperature_grade := orNone (formGetD form "temperature_grade" "").pyStrip,
      testing_status := orNone (formGetD form "testing_status" "").pyStrip,
      revision_info := orNone (formGetD form "revision_info" "").pyStrip,
      design_files := orNone (formGetD form "design_files" "").pyStrip,
      location := some location, assigned_to_id := statusAssignMvs.2.1,
      tags := if tags_input ≠ "" then some (set_tags_list (splitTags tags_input)) else Option.none,
      notes := orNone (formGetD form "notes" "").pyStrip,
      purchase_cost := pf.purchase_cost, current_value := pf.current_value }
  let audit : AuditEvent :=
    { user_id := u.id, equipment_id := some e.id, action := "update_equipment",
      table_name := some "equipment", record_id := some e.id,
      old_values := some [("asset_tag", RawValue.str e.asset_tag),
                          ("name", RawValue.str e.name),
                          ("status", rawOfOptStr e.status),
                          ("assigned_to_id", rawOfOptInt e.assigned_to_id),
                          ("location", rawOfOptStr e.location)],
      new_values := some [("asset_tag", RawValue.str e2.asset_tag),
                          ("name", RawValue.str e2.name),
                          ("status", rawOfOptStr e2.status),
                          ("assigned_to_id", rawOfOptInt e2.assigned_to_id),
                          ("location", rawOfOptStr e2.location)] }
  (e2, statusAssignMvs.2.2, audit)

/-- The edit route: permission gate, the fallible field parses in source
order (the request-level except turns a ValueError into a failed edit that
commits nothing), then the pure application of the update. -/
def edit (e : Equipment) (u : User) (form : List (String × String)) :
    Except String (Equipment × List MovementLog × AuditEvent) :=
  if has_permission u "update" = false then
    Except.error "You do not have permission to edit equipment"
  else
    Except.bind (parseEditForm form) (fun pf => Except.ok (applyEdit e u form pf))

/-! ### Concrete inputs used by witnesses and counterexamples -/

/-- Decidable version of the hypothesis of the pin_count claim: the cell is
a float with a fractional part, or a string that is not a Python integer
literal. -/
def pinBadB (v : RawValue) : Bool :=
  match v with
  | RawValue.float q => q.den ≠ 1
  | RawValue.str s => (pyIntOfString s).isNone
  | _ => false

def uRes : User := { id := 7, role := "Researcher" }

def uRO : User := { id := 9, role := "Read-only" }

def eAvail : Equipment :=
  { id := 1, asset_tag := "EQ1", name := "Scope", category := "Test",
    status := some "Available", location := some "Lab 1" }

def eUsed : Equipment :=
  { id := 2, asset_tag := "EQ2", name := "Meter", category := "Test",
    status := some "In Use", assigned_to_id := some 3, location := some "Lab 2" }

/-- Edit form that keeps the assignee empty while selecting the In Use
status from the status dropdown. -/
def c1form : List (String × String) :=
  [("asset_tag", "EQ1"), ("name", "Scope"), ("category", "Test"), ("status", "In Use")]

/-- The exact result triple of a self-checkout of eAvail by uRes. -/
def c1wTriple : Equipment × MovementLog × AuditEvent :=
  ({ eAvail with status := some "In Use", assigned_to_id := some uRes.id },
   { equipment_id := eAvail.id, user_id := uRes.id, action := "checkout",
     to_user_id := some uRes.id, to_location := eAvail.location, notes := some "Self-checkout" },
   { user_id := uRes.id, equipment_id := some eAvail.id, action := "checkout_equipment",
     table_name := some "equipment", record_id := some eAvail.id,
     old_values := some [("status", RawValue.str "Available"), ("assigned_to_id", RawValue.none)],
     new_values := some [("status", RawValue.str "In Use"), ("assigned_to_id", RawValue.int uRes.id)] })

/-- One fully valid import row (used to exercise the commit path). -/
def c2df : DataFrame :=
  { cols := ["asset_tag", "name", "category"],
    rows := [[("asset_tag", RawValue.str "T1"), ("name", RawValue.str "A"),
              ("category", RawValue.str "C")]] }

def c3eq : Equipment := { id := 4, asset_tag := "T1", name := "Old", category := "C" }

def c3row : Row :=
  [("asset_tag", RawValue.str "T1"), ("name", RawValue.str "New"), ("category", RawValue.str "C")]

/-- Two rows carrying the same fresh tag within one batch. -/
def c3df : DataFrame :=
  { cols := ["asset_tag", "name", "category"],
    rows := [[("asset_tag", RawValue.str "T1"), ("name", RawValue.str "A"), ("category", RawValue.str "C")],
             [("asset_tag", RawValue.str "T1"), ("name", RawValue.str "B"), ("category", RawValue.str "C")]] }

/-- Four data rows, numbered 2 to 5 by the import: row 2 misses the name
required field (cell is null), row 5 misses the asset tag, rows 3 and 4 are
fully valid. -/
def c4df : DataFrame :=
  { cols := ["asset_tag", "name", "category"],
    rows := [[("asset_tag", RawValue.str "T1"), ("name", RawValue.none), ("category", RawValue.str "C")],
             [("asset_tag", RawValue.str "T2"), ("name", RawValue.str "B"), ("category", RawValue.str "C")],
             [("asset_tag", RawValue.str "T3"), ("name", RawValue.str "B"), ("category", RawValue.str "C")],
             [("asset_tag", RawValue.none), ("name", RawValue.str "D"), ("category", RawValue.str "C")]] }

def c4wa : Row := [("asset_tag", RawValue.none), ("name", RawValue.str "A"), ("category", RawValue.str "C")]

def c4wb : Row := [("asset_tag", RawValue.str "W2"), ("name", RawValue.str "B"), ("category", RawValue.str "C")]

def c4wc : Row := [("asset_tag", RawValue.str "W3"), ("name", RawValue.str "B"), ("category", RawValue.str "C")]

def c4wd : Row := [("asset_tag", RawValue.none), ("name", RawValue.str "D"), ("category", RawValue.str "C")]

/-- Rows 2 and 5 lack the asset tag, rows 3 and 4 are valid. -/
def c4wdf : DataFrame :=
  { cols := ["asset_tag", "name", "category"], rows := [c4wa, c4wb, c4wc, c4wd] }

/-- A row whose asset tag is present but whose name and category cells are
both null. -/
def c7df : DataFrame :=
  { cols := ["asset_tag", "name", "category"],
    rows := [[("asset_tag", RawValue.str "T7"), ("name", RawValue.none), ("category", RawValue.none)]] }

def c7row : Row := [("name", RawValue.str "OnlyName"), ("category", RawValue.str "C")]

/-- A row whose pin_count cell is the fractional literal 2.5. -/
def c8row : Row :=
  [("asset_tag", RawValue.str "T8"), ("name", RawValue.str "N"), ("category", RawValue.str "C"),
   ("pin_count", RawValue.str "2.5")]

/-! ### Helper lemmas -/

theorem exceptBind_ok {α β : Type} {x : Except String α} {f : α → Except String β} {c : β} :
    (x >>= f) = Except.ok c ↔ ∃ b, x = Except.ok b ∧ f b = Except.ok c := by
  cases x with
  | ok b => simp [Bind.bind, Except.bind]
  | error m => simp [Bind.bind, Except.bind]

theorem exceptIsOk_iff {α : Type} {x : Except String α} :
    x.isOk = true ↔ ∃ a, x = Except.ok a := by
  cases x <;> simp [Except.isOk, Except.toBool]

theorem exceptIsOk_false_iff {α : Type} {x : Except String α} :
    x.isOk = false ↔ ∃ m, x = Except.error m := by
  cases x <;> simp [Except.isOk, Except.toBool]

theorem buildEquipment_missing_tag (store : List Equipment) (r : Row) (rn : Nat)
    (h : tagOf r = Option.none) :
    buildEquipment store r rn = Except.error s!"Row {rn}: asset_tag is required." := by
  unfold tagOf at h
  unfold buildEquipment
  by_cases h1 : getCell r "asset_tag" RawValue.none = RawValue.none
  · rw [if_pos (Or.inl h1)]
  · rw [if_neg h1] at h
    by_cases h2 : (pystr (getCell r "asset_tag" RawValue.none)).pyStrip = ""
    · rw [if_pos (Or.inr h2)]
    · rw [if_neg h2] at h
      exact absurd h (by simp)

theorem buildEquipment_dup_tag (store : List Equipment) (r : Row) (rn : Nat) (t : String)
    (h : tagOf r = some t) (hdup : store.any (fun e => e.asset_tag = t) = true) :
    buildEquipment store r rn = Except.error s!"Row {rn}: Asset tag {t} already exists" := by
  unfold tagOf at h
  unfold buildEquipment
  by_cases h1 : getCell r "asset_tag" RawValue.none = RawValue.none
  · rw [if_pos h1] at h; exact absurd h (by simp)
  · rw [if_neg h1] at h
    by_cases h2 : (pystr (getCell r "asset_tag" RawValue.none)).pyStrip = ""
    · rw [if_pos h2] at h; exact absurd h (by simp)
    · rw [if_neg h2] at h
      have ht : (pystr (getCell r "asset_tag" RawValue.none)).pyStrip = t := by
        simpa using h
      rw [if_neg (by simp [h1, h2])]
      rw [ht, if_pos hdup]
      rfl

theorem importLoop_cons_ok (store : List Equipment) (r : Row) (rs : List Row) (rn : Nat)
    (res : ImportResults) (acc : List Equipment) (e : Equipment)
    (h : buildEquipment store r rn = Except.ok e) :
    importLoop store (r :: rs) rn res acc =
      importLoop store rs (rn + 1)
        { res with total := res.total + 1, success := res.success + 1 } (acc ++ [e]) := by
  simp [importLoop, h]

theorem importLoop_cons_err (store : List Equipment) (r : Row) (rs : List Row) (rn : Nat)
    (res : ImportResults) (acc : List Equipment) (m : String)
    (h : buildEquipment store r rn = Except.error m) :
    importLoop store (r :: rs) rn res acc =
      importLoop store rs (rn + 1)
        { res with total := res.total + 1, errors := res.errors ++ [m] } acc := by
  simp [importLoop, h]

theorem importLoop_all_ok (store : List Equipment) :
    ∀ (rows : List Row) (rn : Nat) (res : ImportResults) (acc : List Equipment),
    (∀ i (h : i < rows.length), (buildEquipment store (rows.get ⟨i, h⟩) (rn + i)).isOk = true) →
    (importLoop store rows rn res acc).1 =
      { res with total := res.total + rows.length, success := res.success + rows.length } := by
  intro rows
  induction rows with
  | nil => intro rn res acc _; cases res; simp [importLoop]
  | cons r rs ih =>
    intro rn res acc hok
    have h0 := hok 0 (by simp)
    rw [exceptIsOk_iff] at h0
    obtain ⟨e, he⟩ := h0
    simp only [List.get] at he
    rw [importLoop_cons_ok store r rs rn res acc e (by simpa using he)]
    have hshift : ∀ i (h : i < rs.length),
        (buildEquipment store (rs.get ⟨i, h⟩) (rn + 1 + i)).isOk = true := by
      intro i h
      have := hok (i + 1) (by simpa using Nat.succ_lt_succ h)
      simpa [Nat.add_assoc, Nat.add_comm 1 i] using this
    rw [ih (rn + 1) _ _ hshift]
    cases res
    simp
    omega

theorem foldlM_err_of_mem {g : Equipment → String → Except String Equipment} {x : String} :
    ∀ {l : List String}, x ∈ l → (∀ acc, (g acc x).isOk = false) →
    ∀ init, (List.foldlM g init l).isOk = false := by
  intro l
  induction l with
  | nil => intro hx; exact absurd hx (by simp)
  | cons a as ih =>
    intro hx hbad init
    rcases List.mem_cons.mp hx with hxa | hxs
    · subst hxa
      have := hbad init
      rw [exceptIsOk_false_iff] at this
      obtain ⟨m, hm⟩ := this
      simp [List.foldlM, hm, Bind.bind, Except.bind, Except.isOk, Except.toBool]
    · cases hga : g init a with
      | error m => simp [List.foldlM, hga, Bind.bind, Except.bind, Except.isOk, Except.toBool]
      | ok b =>
        have := ih hxs hbad b
        simp [List.foldlM, hga, Bind.bind, Except.bind]
        exact this

/-! ### Claim theorems -/

/-- C6: parse_date tries exactly the formats YYYY-MM-DD, MM/DD/YYYY,
DD/MM/YYYY and YYYY-MM-DD HH:MM:SS in that fixed order and returns the first
successful parse, failing with an invalid-date-format error when none match;
the inputs 2024-01-31, 01/31/2024 and 31/01/2024 parse via the first, second
and third format respectively, all to January 31, 2024.  The intermediate
equations exhibit which format in the try order decided each input. -/
theorem c6_date_try_order :
    parse_date (RawValue.str "2024-01-31") = Except.ok (some ⟨2024, 1, 31⟩)
    ∧ parseYMD "2024-01-31" = some ⟨2024, 1, 31⟩
    ∧ parseYMD "01/31/2024" = Option.none
    ∧ parseMDY "01/31/2024" = some ⟨2024, 1, 31⟩
    ∧ parse_date (RawValue.str "01/31/2024") = Except.ok (some ⟨2024, 1, 31⟩)
    ∧ parseYMD "31/01/2024" = Option.none
    ∧ parseMDY "31/01/2024" = Option.none
    ∧ parseDMY "31/01/2024" = some ⟨2024, 1, 31⟩
    ∧ parse_date (RawValue.str "31/01/2024") = Except.ok (some ⟨2024, 1, 31⟩)
    ∧ parse_date (RawValue.str "2024-01-31 10:20:30") = Except.ok (some ⟨2024, 1, 31⟩)
    ∧ parse_date (RawValue.str "31-01-2024") = Except.error "Invalid date format: 31-01-2024" :=
  ⟨rfl, rfl, rfl, rfl, rfl, rfl, rfl, rfl, rfl, rfl, rfl⟩

/-- C9: a dry-run import performs no write at all: the Entity Store, the
movement ledger and the audit ledger are untouched for every input table,
actor and starting state; only the batch result is produced. -/
theorem c9_dry_run_no_write (df : DataFrame) (uid : Int) (st : StoreState) (dbFails : Bool) :
    (import_from_dataframe df uid true st dbFails).2 = st := by
  unfold import_from_dataframe
  split
  · rfl
  · simp

/-- C5: checkout of an entity whose status is not exactly Available fails
with the precondition error and produces no mutation (the route mutates only
in its success branch, so the error carries no new state); checkout of an
Available entity by an actor holding the checkout permission sets status to
In Use, assigns the requesting actor, and appends one checkout movement
whose to-user is that actor, plus the audit event. -/
theorem c5_checkout_spec (e : Equipment) (u : User) :
    (e.status ≠ some "Available" →
      checkout e u = Except.error "Equipment is not available for checkout")
    ∧ (e.status = some "Available" → has_permission u "checkout" = true →
      checkout e u = Except.ok
        ({ e with status := some "In Use", assigned_to_id := some u.id },
         { equipment_id := e.id, user_id := u.id, action := "checkout",
           to_user_id := some u.id, to_location := e.location, notes := some "Self-checkout" },
         { user_id := u.id, equipment_id := some e.id, action := "checkout_equipment",
           table_name := some "equipment", record_id := some e.id,
           old_values := some [("status", RawValue.str "Available"), ("assigned_to_id", RawValue.none)],
           new_values := some [("status", RawValue.str "In Use"), ("assigned_to_id", RawValue.int u.id)] })) := by
  constructor
  · intro h
    have hb : is_available e = false := by simp [is_available]; exact h
    simp [checkout, hb]
  · intro h1 h2
    have hb : is_available e = true := by simp [is_available, h1]
    simp [checkout, hb, h2]

/-- Witness for C5: a Researcher checking out an Available entity succeeds,
and checkout of an In Use entity fails with the precondition error. -/
theorem c5_checkout_witness :
    eUsed.status ≠ some "Available"
    ∧ checkout eUsed uRes = Except.error "Equipment is not available for checkout"
    ∧ eAvail.status = some "Available"
    ∧ has_permission uRes "checkout" = true
    ∧ (checkout eAvail uRes).isOk = true :=
  ⟨by decide, (c5_checkout_spec eUsed uRes).1 (by decide), rfl, by decide,
   by rw [(c5_checkout_spec eAvail uRes).2 rfl (by decide)]; rfl⟩

/-- C10: on an entity whose assignee is null, checkin succeeds exactly when
the actor holds the update permission (the assignee-equality disjunct can
never hold against a null assignee); a denied request returns the error and
mutates nothing, while a permitted one sets status Available, leaves the
assignee null, and still appends a checkin movement with no from-user. -/
theorem c10_checkin_unassigned (e : Equipment) (u : User)
    (h : e.assigned_to_id = Option.none) :
    (has_permission u "update" = false →
      checkin e u = Except.error "You can only check in equipment assigned to you")
    ∧ (has_permission u "update" = true →
      checkin e u = Except.ok
        ({ e with status := some "Available", assigned_to_id := Option.none },
         { equipment_id := e.id, user_id := u.id, action := "checkin",
           from_user_id := Option.none, to_location := e.location, notes := some "Equipment returned" },
         { user_id := u.id, equipment_id := some e.id, action := "checkin_equipment",
           table_name := some "equipment", record_id := some e.id,
           old_values := some [("status", RawValue.str "In Use"), ("assigned_to_id", RawValue.none)],
           new_values := some [("status", RawValue.str "Available"), ("assigned_to_id", RawValue.none)] })) := by
  constructor
  · intro hp
    rw [checkin, if_pos ⟨by simp [h], hp⟩]
  · intro hp
    rw [checkin, if_neg (by simp [hp])]
    simp [h, rawOfOptInt]

/-- Witness for C10: on the unassigned eAvail, a Researcher (who holds
update) checks in successfully while a Read-only actor is rejected. -/
theorem c10_checkin_witness :
    eAvail.assigned_to_id = Option.none
    ∧ has_permission uRes "update" = true
    ∧ (checkin eAvail uRes).isOk = true
    ∧ has_permission uRO "update" = false
    ∧ checkin eAvail uRO = Except.error "You can only check in equipment assigned to you" :=
  ⟨rfl, by decide, by rw [(c10_checkin_unassigned eAvail uRes rfl).2 (by decide)]; rfl,
   by decide, (c10_checkin_unassigned eAvail uRO rfl).1 (by decide)⟩

/-- C2: when the persistence step of a non-dry-run import fails, the batch
result reports the database error and the returned state is exactly the
initial state: no equipment row, movement or audit event from the batch is
committed, not even rows that individually validated.  The single
session.commit is all-or-nothing and is rolled back on failure. -/
theorem c2_commit_atomicity (df : DataFrame) (uid : Int) (st : StoreState)
    (hH : headerErrors df = [])
    (hNE : (validationPhase df st).2 ≠ []) :
    import_from_dataframe df uid false st true =
      ({ (validationPhase df st).1 with
          errors := (validationPhase df st).1.errors ++ ["Database error: commit failed"] }, st) := by
  unfold import_from_dataframe
  rw [if_neg (by simp [hH])]
  show (if false = false ∧ (validationPhase df st).2 ≠ [] then _ else _) = _
  rw [if_pos ⟨rfl, hNE⟩]
  show (match commitBatch st (validationPhase df st).2 true with
        | Except.ok st2 =>
          ((validationPhase df st).1,
           { st2 with audits := st2.audits ++ [bulkAudit uid (validationPhase df st).2.length] })
        | Except.error m =>
          ({ (validationPhase df st).1 with
              errors := (validationPhase df st).1.errors ++ [s!"Database error: {m}"] }, st)) = _
  rfl

/-- Witness for C2: one valid row, commit made to fail: the store stays
empty and the failure is reported. -/
theorem c2_commit_atomicity_witness :
    headerErrors c2df = []
    ∧ (validationPhase c2df {}).2 ≠ []
    ∧ (import_from_dataframe c2df 1 false {} true).2 = ({} : StoreState)
    ∧ (import_from_dataframe c2df 1 false {} true).1.errors = ["Database error: commit failed"] := by
  have main := c2_commit_atomicity c2df 1 {} rfl (by decide)
  exact ⟨rfl, by decide, by rw [main], by rw [main]; rfl⟩

/-- C3 (amended): during validation the unique key of a row is checked only
against the Entity Store; a store collision rejects exactly that row with
the descriptive duplicate message while the remaining rows continue to be
processed.  Keys of rows already accepted earlier in the same batch are not
consulted. -/
theorem c3_unique_key_store_only :
    (∀ (store : List Equipment) (r : Row) (rn : Nat) (t : String),
      tagOf r = some t → store.any (fun e => e.asset_tag = t) = true →
      buildEquipment store r rn = Except.error s!"Row {rn}: Asset tag {t} already exists")
    ∧ (∀ (store : List Equipment) (r : Row) (rs : List Row) (rn : Nat)
        (res : ImportResults) (acc : List Equipment) (m : String),
      buildEquipment store r rn = Except.error m →
      importLoop store (r :: rs) rn res acc =
        importLoop store rs (rn + 1)
          { res with total := res.total + 1, errors := res.errors ++ [m] } acc) :=
  ⟨buildEquipment_dup_tag, importLoop_cons_err⟩

/-- Counterexample for C3 as stated: two rows of one batch share a tag that
is absent from the store; a dry run accepts both rows and reports no error,
so a collision with an already-accepted row of the same batch does not
reject the later row. -/
theorem c3_in_batch_duplicate_not_rejected :
    (import_from_dataframe c3df 1 true {} false).1.success = 2
    ∧ (import_from_dataframe c3df 1 true {} false).1.errors = [] :=
  ⟨rfl, rfl⟩

/-- Witness for C3: a row whose tag already exists in the store is rejected
with the duplicate message. -/
theorem c3_unique_key_witness :
    tagOf c3row = some "T1"
    ∧ ([c3eq].any (fun e => e.asset_tag = "T1")) = true
    ∧ buildEquipment [c3eq] c3row 2 = Except.error "Row 2: Asset tag T1 already exists" :=
  ⟨rfl, rfl, c3_unique_key_store_only.1 [c3eq] c3row 2 "T1" rfl rfl⟩

/-- C7 (amended): in the equipment domain a row is rejected for a missing
required field only when the asset_tag cell is absent or blank, and then
with the single asset_tag error message and zero contributed entities (the
accepted-draft accumulator is unchanged); missing name or category cells do
not reject the row. -/
theorem c7_required_fields_amended :
    (∀ (store : List Equipment) (r : Row) (rn : Nat),
      tagOf r = Option.none →
      buildEquipment store r rn = Except.error s!"Row {rn}: asset_tag is required.")
    ∧ (∀ (store : List Equipment) (r : Row) (rs : List Row) (rn : Nat)
        (res : ImportResults) (acc : List Equipment),
      tagOf r = Option.none →
      importLoop store (r :: rs) rn res acc =
        importLoop store rs (rn + 1)
          { res with
            total := res.total + 1,
            errors := res.errors ++ [s!"Row {rn}: asset_tag is required."] } acc) :=
  ⟨buildEquipment_missing_tag,
   fun store r rs rn res acc h =>
     importLoop_cons_err store r rs rn res acc _ (buildEquipment_missing_tag store r rn h)⟩

/-- Counterexample for C7 as stated: a row with a tag but null name and null
category cells is accepted (one entity, no error); str() renders the null
cells as the string None instead of rejecting the row with one message per
missing required field. -/
theorem c7_missing_name_accepted :
    (import_from_dataframe c7df 1 true {} false).1.success = 1
    ∧ (import_from_dataframe c7df 1 true {} false).1.errors = []
    ∧ (validationPhase c7df {}).2.map (fun e => (e.name, e.category)) = [("None", "None")] :=
  ⟨rfl, rfl, rfl⟩

/-- Witness for C7: a row without an asset_tag column is rejected with the
single required-field message. -/
theorem c7_required_witness :
    tagOf c7row = Option.none
    ∧ buildEquipment [] c7row 2 = Except.error "Row 2: asset_tag is required." :=
  ⟨rfl, c7_required_fields_amended.1 [] c7row 2 rfl⟩

/-- C4 (amended): for a table whose rows numbered 2 and 5 (the first and
fourth data rows under the 2-based numbering of the import) have a missing
or blank asset_tag and whose remaining rows each validate successfully
against the store, a dry-run import processes every row independently and
reports success N minus 2 together with exactly the two asset_tag error
messages naming rows 2 and 5, leaving the state untouched.  Row
independence is structural: each outcome is a function of the store, the
row and its number only.  Rows missing only name or category are not
rejected (see the counterexample), so the amendment restricts the missing
required field to the asset tag and requires the other rows to be valid. -/
theorem c4_partial_failure_amended (df : DataFrame) (uid : Int) (st : StoreState)
    (a b c d : Row) (rest : List Row)
    (hH : headerErrors df = [])
    (hrows : df.rows.map normalizeRow = a :: b :: c :: d :: rest)
    (ha : tagOf a = Option.none)
    (hd : tagOf d = Option.none)
    (hb : (buildEquipment st.equipment b 3).isOk = true)
    (hc : (buildEquipment st.equipment c 4).isOk = true)
    (hrest : ∀ i (h : i < rest.length),
      (buildEquipment st.equipment (rest.get ⟨i, h⟩) (6 + i)).isOk = true) :
    (import_from_dataframe df uid true st false).1.total = 4 + rest.length
    ∧ (import_from_dataframe df uid true st false).1.success = 2 + rest.length
    ∧ (import_from_dataframe df uid true st false).1.errors =
        ["Row 2: asset_tag is required.", "Row 5: asset_tag is required."]
    ∧ (import_from_dataframe df uid true st false).2 = st := by
  have hdry : import_from_dataframe df uid true st false = ((validationPhase df st).1, st) := by
    unfold import_from_dataframe
    rw [if_neg (by simp [hH])]
    show (if true = false ∧ (validationPhase df st).2 ≠ [] then _ else _) = _
    rw [if_neg (by simp)]
  have hval : validationPhase df st = importLoop st.equipment (a :: b :: c :: d :: rest) 2 {} [] := by
    unfold validationPhase
    rw [hrows]
  obtain ⟨eb, heb⟩ := exceptIsOk_iff.mp hb
  obtain ⟨ec, hec⟩ := exceptIsOk_iff.mp hc
  rw [hdry, hval]
  rw [importLoop_cons_err st.equipment a (b :: c :: d :: rest) 2 {} [] _
        (buildEquipment_missing_tag st.equipment a 2 ha)]
  rw [importLoop_cons_ok st.equipment b (c :: d :: rest) 3 _ _ eb heb]
  rw [importLoop_cons_ok st.equipment c (d :: rest) 4 _ _ ec hec]
  rw [importLoop_cons_err st.equipment d rest 5 _ _ _
        (buildEquipment_missing_tag st.equipment d 5 hd)]
  rw [importLoop_all_ok st.equipment rest 6 _ _ hrest]
  refine ⟨by simp, by simp, by simp; exact ⟨rfl, rfl⟩, rfl⟩

/-- Counterexample for C4 as stated: in a four-row table whose rows 2 and 5
each miss a required field (row 2 misses name, row 5 misses asset_tag), the
dry run accepts three rows instead of N minus 2 = 2 and reports only the
row 5 error: a missing name does not reject a row. -/
theorem c4_missing_name_counterexample :
    (import_from_dataframe c4df 1 true {} false).1.total = 4
    ∧ (import_from_dataframe c4df 1 true {} false).1.success = 3
    ∧ (import_from_dataframe c4df 1 true {} false).1.errors = ["Row 5: asset_tag is required."] :=
  ⟨rfl, rfl, rfl⟩

/-- Witness for C4: a concrete four-row table with blank asset tags at rows
2 and 5 and valid rows 3 and 4. -/
theorem c4_partial_failure_witness :
    headerErrors c4wdf = []
    ∧ c4wdf.rows.map normalizeRow = c4wa :: c4wb :: c4wc :: c4wd :: []
    ∧ tagOf c4wa = Option.none
    ∧ tagOf c4wd = Option.none
    ∧ (import_from_dataframe c4wdf 1 true {} false).1.total = 4
    ∧ (import_from_dataframe c4wdf 1 true {} false).1.success = 2
    ∧ (import_from_dataframe c4wdf 1 true {} false).1.errors =
        ["Row 2: asset_tag is required.", "Row 5: asset_tag is required."] := by
  have main := c4_partial_failure_amended c4wdf 1 {} c4wa c4wb c4wc c4wd []
    rfl rfl rfl rfl (by decide) (by decide)
    (fun i h => absurd h (by simp))
  exact ⟨rfl, rfl, rfl, rfl, main.1, main.2.1, main.2.2.1⟩

theorem lookup_normalizeRow (f : String) :
    ∀ r : Row, List.lookup f (normalizeRow r) = (List.lookup f r).map normalizeCell := by
  intro r
  induction r with
  | nil => rfl
  | cons p rest ih =>
    obtain ⟨k, v⟩ := p
    by_cases hk : f == k
    · simp [normalizeRow, List.lookup, hk]
    · simp only [normalizeRow, List.map, List.lookup, hk]
      simpa [normalizeRow] using ih

theorem normalizeCell_ne_empty_str (v : RawValue) : normalizeCell v ≠ RawValue.str "" := by
  cases v with
  | str s =>
    by_cases hs : s = "NA" ∨ s = ""
    · simp [normalizeCell, hs]
    · have h2 : ¬ s = "" := fun h2 => hs (Or.inr h2)
      have hna : ¬ s = "NA" := fun hna => hs (Or.inl hna)
      simp [normalizeCell, hna, h2]
  | none => simp [normalizeCell]
  | int n => simp [normalizeCell]
  | float q => simp [normalizeCell]

theorem getCell_normalizeRow_ne_empty_str (r : Row) (f : String) :
    getCell (normalizeRow r) f RawValue.none ≠ RawValue.str "" := by
  unfold getCell
  rw [lookup_normalizeRow]
  cases List.lookup f r with
  | none => simp
  | some v => simpa using normalizeCell_ne_empty_str v

/-- C8: the pin_count field of a (NA-normalised) row never survives with a
non-numeric or fractional value: any such row is rejected with an error
rather than the value being truncated or accepted.  (The rejection comes
from the raising membership guard of line 91, which rejects every non-null
pin_count cell, so in particular the non-numeric and fractional ones.) -/
theorem c8_pin_count_strict (store : List Equipment) (r : Row) (rn : Nat)
    (h : pinBadB (getCell (normalizeRow r) "pin_count" RawValue.none) = true) :
    (buildEquipment store (normalizeRow r) rn).isOk = false := by
  have hbad : ∀ acc : Equipment,
      (setOptField acc "pin_count" (getCell (normalizeRow r) "pin_count" RawValue.none)).isOk = false := by
    intro acc
    cases hcell : getCell (normalizeRow r) "pin_count" RawValue.none with
    | none => rw [hcell] at h; exact absurd h (by simp [pinBadB])
    | int n => rw [hcell] at h; exact absurd h (by simp [pinBadB])
    | float q =>
      simp [setOptField, convertField, tupleGuard, Bind.bind, Except.bind,
            Except.isOk, Except.toBool]
    | str s =>
      have hs : s ≠ "" := by
        intro hs0
        exact getCell_normalizeRow_ne_empty_str r "pin_count" (by rw [hcell, hs0])
      simp [setOptField, convertField, tupleGuard, hs, Bind.bind, Except.bind,
            Except.isOk, Except.toBool]
  unfold buildEquipment
  by_cases h1 : (getCell (normalizeRow r) "asset_tag" RawValue.none = RawValue.none
      ∨ (pystr (getCell (normalizeRow r) "asset_tag" RawValue.none)).pyStrip = "")
  · rw [if_pos h1]; rfl
  · rw [if_neg h1]
    by_cases h2 : (store.any fun e =>
        e.asset_tag = (pystr (getCell (normalizeRow r) "asset_tag" RawValue.none)).pyStrip) = true
    · rw [if_pos h2]; rfl
    · rw [if_neg h2]
      have hmem : "pin_count" ∈ OPTIONAL_FIELDS := by simp [OPTIONAL_FIELDS]
      have hfold := @foldlM_err_of_mem
        (fun e f => setOptField e f (getCell (normalizeRow r) f RawValue.none))
        "pin_count" OPTIONAL_FIELDS hmem hbad
        { asset_tag := (pystr (getCell (normalizeRow r) "asset_tag" RawValue.none)).pyStrip,
          name := (pystr (getCell (normalizeRow r) "name" (RawValue.str ""))).pyStrip,
          category := (pystr (getCell (normalizeRow r) "category" (RawValue.str ""))).pyStrip }
      obtain ⟨m, hm⟩ := exceptIsOk_false_iff.mp hfold
      rw [hm]
      rfl

/-- Witness for C8: a row whose pin_count cell holds the fractional literal
2.5 is rejected. -/
theorem c8_pin_count_witness :
    pinBadB (getCell (normalizeRow c8row) "pin_count" RawValue.none) = true
    ∧ (buildEquipment [] (normalizeRow c8row) 2).isOk = false :=
  ⟨rfl, c8_pin_count_strict [] c8row 2 rfl⟩

theorem editBind_ok {α β : Type} {x : Except String α} {f : α → Except String β} {c : β} :
    Except.bind x f = Except.ok c ↔ ∃ b, x = Except.ok b ∧ f b = Except.ok c := by
  cases x with
  | ok b => simp [Except.bind]
  | error m => simp [Except.bind]

/-- C1 (amended): the assignee-status invariant (assignee non-null iff
status is In Use) holds immediately after a successful checkout, after a
successful checkin, and after a successful manual edit in which the stored
assignee changed (the assignment sub-rule forces status In Use on assign and
Available on unassign).  The other mutation paths do not establish it:
manual add and manual edit take the status verbatim from the form without
consulting the assignee, so an edit that keeps the assignee untouched can
select status In Use with a null assignee (see the counterexample), and
bulk-import rows never set an assignee at all. -/
theorem c1_invariant_amended :
    (∀ (e : Equipment) (u : User) (p : Equipment × MovementLog × AuditEvent),
      checkout e u = Except.ok p →
      (p.1.assigned_to_id ≠ Option.none ↔ p.1.status = some "In Use"))
    ∧ (∀ (e : Equipment) (u : User) (p : Equipment × MovementLog × AuditEvent),
      checkin e u = Except.ok p →
      (p.1.assigned_to_id ≠ Option.none ↔ p.1.status = some "In Use"))
    ∧ (∀ (e : Equipment) (u : User) (form : List (String × String))
        (p : Equipment × List MovementLog × AuditEvent),
      edit e u form = Except.ok p → e.assigned_to_id ≠ p.1.assigned_to_id →
      (p.1.assigned_to_id ≠ Option.none ↔ p.1.status = some "In Use")) := by
  refine ⟨?_, ?_, ?_⟩
  · intro e u p hp
    unfold checkout at hp
    split at hp
    · exact absurd hp (by simp)
    · split at hp
      · exact absurd hp (by simp)
      · rw [Except.ok.injEq] at hp
        subst hp
        simp
  · intro e u p hp
    unfold checkin at hp
    split at hp
    · exact absurd hp (by simp)
    · rw [Except.ok.injEq] at hp
      subst hp
      simp
  · intro e u form p hp hchange
    unfold edit at hp
    split at hp
    · exact absurd hp (by simp)
    · rw [editBind_ok] at hp
      obtain ⟨pf, hpf, hap⟩ := hp
      rw [Except.ok.injEq] at hap
      subst hap
      by_cases hc : e.assigned_to_id = pf.new_assigned
      · simp [applyEdit, hc] at hchange
      · cases hn : pf.new_assigned with
        | some nid => rw [hn] at hc; simp [applyEdit, hc, hn]
        | none => rw [hn] at hc; simp [applyEdit, hc, hn]

/-- Counterexample for C1 as stated: a completed manual edit by a permitted
actor on an unassigned Available entity, with the form selecting status
In Use and leaving the assignee field absent, returns an entity whose status
is In Use while its assignee is null — the invariant does not hold after
this completed mutation. -/
theorem c1_invariant_counterexample :
    (edit eAvail uRes c1form).map (fun p => (p.1.status, p.1.assigned_to_id))
      = Except.ok (some "In Use", Option.none) := rfl

/-- Witness for C1: a successful concrete checkout satisfies the invariant. -/
theorem c1_invariant_witness :
    checkout eAvail uRes = Except.ok c1wTriple
    ∧ (c1wTriple.1.assigned_to_id ≠ Option.none ↔ c1wTriple.1.status = some "In Use") :=
  ⟨rfl, c1_invariant_amended.1 eAvail uRes c1wTriple rfl⟩
